import Mathlib

/-!
Verification of the contest / discrete-strategy model in `src/discrete_model.py`
and the parameter-sweep engine in `src/scenarios.py`.

Numbers are modelled as rationals (`ℚ`); numpy's elementwise arithmetic on
1-D arrays is modelled on `List ℚ`, with numpy's 1-D broadcasting rules made
explicit (an `Except` value models the `ValueError` numpy raises on
incompatible shapes).  Division follows Lean's total convention `q / 0 = 0`;
the places where the Python code can divide by zero (all-zero performance
vector, the degenerate mixed-equilibrium denominator) are noted at the
corresponding theorems.
-/

set_option linter.unusedVariables false

namespace AiIncentives

/-- `CSF.__init__` fields from `src/discrete_model.py` lines 6-18:
`w` reward for winner, `l` reward for loser(s), `a_w` reward per unit of
performance for winner, `a_l` reward per unit for loser. -/
structure CSF where
  w : ℚ
  l : ℚ
  a_w : ℚ
  a_l : ℚ

/-- `CSF.reward(i, p)` (`src/discrete_model.py` lines 20-25):
`win_proba = p[i] / p.sum()` and the reward is
`(w + p[i]*a_w) * win_proba + (l + p[i]*a_l) * (1 - win_proba)`.
Out-of-range indexing defaults to `0` (the claims only use `i < p.length`). -/
def CSF.reward (c : CSF) (i : ℕ) (p : List ℚ) : ℚ :=
  (c.w + p.getD i 0 * c.a_w) * (p.getD i 0 / p.sum)
    + (c.l + p.getD i 0 * c.a_l) * (1 - p.getD i 0 / p.sum)

/-- `CSF.all_rewards(p)` (`src/discrete_model.py` lines 27-32): the vectorized
form, `win_probas = p / p.sum()` elementwise. -/
def CSF.all_rewards (c : CSF) (p : List ℚ) : List ℚ :=
  p.map (fun q => (c.w + q * c.a_w) * (q / p.sum) + (c.l + q * c.a_l) * (1 - q / p.sum))

/-- Numpy coercion of a boolean to a number, as in `sigma * x + (1 - x)`. -/
def bq (b : Bool) : ℚ :=
  if b then 1 else 0

/-- Numpy's elementwise binary operation on two 1-D arrays: equal lengths
operate pointwise; a length-1 operand is broadcast across the other; any
other length combination raises a `ValueError`. -/
def npBroadcast (f : ℚ → ℚ → ℚ) (a b : List ℚ) : Except String (List ℚ) :=
  if a.length = b.length then Except.ok (List.zipWith f a b)
  else if a.length = 1 then Except.ok (b.map (fun q => f (a.getD 0 0) q))
  else if b.length = 1 then Except.ok (a.map (fun q => f q (b.getD 0 0)))
  else Except.error "operands could not be broadcast together"

/-- `Game.__init__` (`src/discrete_model.py` lines 55-61): per-player vectors
`pi`, `sigma`, `d` and a CSF; the constructor asserts that the three vectors
have equal length (carried here as proof fields) and sets
`n_players = len(pi)`. -/
structure Game where
  pi : List ℚ
  sigma : List ℚ
  d : List ℚ
  csf : CSF
  sigma_len : sigma.length = pi.length
  d_len : d.length = pi.length

/-- `self.n_players = len(pi)` (`src/discrete_model.py` line 61). -/
def Game.n_players (g : Game) : ℕ :=
  g.pi.length

/-- `Game.get_payoffs(x)` (`src/discrete_model.py` lines 63-71):
`safe_proba = (sigma * x + (1-x)).prod()`,
`rewards = csf.all_rewards(pi * (1 - x) + x)`, and the result is
`safe_proba * rewards - (1 - safe_proba) * d`.  Each numpy elementwise
operation goes through `npBroadcast`, exactly as numpy evaluates the
expressions (no length precondition is checked by the source). -/
def Game.get_payoffs (g : Game) (x : List Bool) : Except String (List ℚ) := do
  let xq := x.map bq
  let sx ← npBroadcast (fun a b => a * b) g.sigma xq
  let sfull ← npBroadcast (fun a b => a + b) sx (xq.map (fun v => 1 - v))
  let safe_proba := sfull.prod
  let px ← npBroadcast (fun a b => a * (1 - b)) g.pi xq
  let perf ← npBroadcast (fun a b => a + b) px xq
  let rewards := g.csf.all_rewards perf
  npBroadcast (fun rw dd => safe_proba * rw - (1 - safe_proba) * dd) rewards g.d

/- ### Helper lemmas on lists -/

lemma getD_map_q (f : ℚ → ℚ) (l : List ℚ) (i : ℕ) (hi : i < l.length) :
    (l.map f).getD i 0 = f (l.getD i 0) := by
  induction l generalizing i with
  | nil => simp at hi
  | cons a t ih =>
    cases i with
    | zero => simp
    | succ j =>
      simp only [List.map_cons, List.getD_cons_succ]
      exact ih j (by simpa using hi)

/-- `CSF.all_rewards` agrees entrywise with `CSF.reward`. -/
lemma all_rewards_getD (c : CSF) (p : List ℚ) (i : ℕ) (hi : i < p.length) :
    (c.all_rewards p).getD i 0 = c.reward i p := by
  unfold CSF.all_rewards CSF.reward
  rw [getD_map_q _ _ _ hi]

lemma getD_zipWith_q (f : ℚ → ℚ → ℚ) (a b : List ℚ) (i : ℕ)
    (ha : i < a.length) (hb : i < b.length) :
    (List.zipWith f a b).getD i 0 = f (a.getD i 0) (b.getD i 0) := by
  have hi : i < (List.zipWith f a b).length := by
    rw [List.length_zipWith]; exact lt_min ha hb
  rw [List.getD_eq_getElem _ _ hi, List.getD_eq_getElem _ _ ha, List.getD_eq_getElem _ _ hb,
    List.getElem_zipWith]

lemma zipWith_zipWith_same (F G : ℚ → ℚ → ℚ) (a b : List ℚ) :
    List.zipWith F (List.zipWith G a b) b = List.zipWith (fun x y => F (G x y) y) a b := by
  induction a generalizing b with
  | nil => simp
  | cons x xs ih =>
    cases b with
    | nil => simp
    | cons y ys => simp [ih]

lemma list_ext_getD (a b : List ℚ) (hlen : a.length = b.length)
    (h : ∀ i, i < a.length → a.getD i 0 = b.getD i 0) : a = b := by
  refine List.ext_getElem hlen (fun i h1 h2 => ?_)
  have := h i h1
  rwa [List.getD_eq_getElem _ _ h1, List.getD_eq_getElem _ _ h2] at this

lemma getD_range_map (f : ℕ → ℚ) (n i : ℕ) (hi : i < n) :
    ((List.range n).map f).getD i 0 = f i := by
  have hlen : i < ((List.range n).map f).length := by simpa using hi
  rw [List.getD_eq_getElem _ _ hlen, List.getElem_map, List.getElem_range]

/- ### Spec-side formulations of the payoff computation (claim C1) -/

/-- The effective performance vector as C1 states it: a risky player `j`
contributes `pi_j` and a safe player contributes `1`. -/
def claimEffectivePerf (pi : List ℚ) (x : List Bool) : List ℚ :=
  List.zipWith (fun pj xj => if xj then pj else 1) pi x

/-- The effective performance vector the source actually computes
(`self.pi * (1 - x) + x`, `src/discrete_model.py` line 70): a risky player
contributes `1` and a safe player `j` contributes `pi_j`. -/
def amendedEffectivePerf (pi : List ℚ) (x : List Bool) : List ℚ :=
  List.zipWith (fun pj xj => if xj then 1 else pj) pi x

/-- `safe_proba` as the claim states it: the product over players `j` of
`sigma_j * x_j + (1 - x_j)`, i.e. `sigma_j` for risky `j` and `1` for safe. -/
def specSafeProba (sigma : List ℚ) (x : List Bool) : ℚ :=
  (List.zipWith (fun sj xj => if xj then sj else 1) sigma x).prod

/-- The payoff vector C1 describes, for a given effective performance vector
`perf`: `i`-th entry `safe_proba * reward_i - (1 - safe_proba) * d_i`, with
`reward_i` the single-player CSF reward at `perf`. -/
def claimPayoffVector (g : Game) (x : List Bool) (perf : List ℚ) : List ℚ :=
  (List.range g.n_players).map
    (fun i => specSafeProba g.sigma x * g.csf.reward i perf
      - (1 - specSafeProba g.sigma x) * g.d.getD i 0)

lemma npBroadcast_eq_len (f : ℚ → ℚ → ℚ) (a b : List ℚ) (h : a.length = b.length) :
    npBroadcast f a b = Except.ok (List.zipWith f a b) := by
  unfold npBroadcast
  rw [if_pos h]

lemma except_bind_ok {α β : Type} (a : α) (g : α → Except String β) :
    (Except.ok a >>= g) = g a :=
  rfl

instance {ε α : Type} [DecidableEq ε] [DecidableEq α] : DecidableEq (Except ε α) :=
  fun a b =>
    match a, b with
    | Except.ok x, Except.ok y =>
      if h : x = y then Decidable.isTrue (by rw [h])
      else Decidable.isFalse (fun hc => h (Except.ok.inj hc))
    | Except.ok _, Except.error _ => Decidable.isFalse (fun hc => Except.noConfusion hc)
    | Except.error _, Except.ok _ => Decidable.isFalse (fun hc => Except.noConfusion hc)
    | Except.error u, Except.error v =>
      if h : u = v then Decidable.isTrue (by rw [h])
      else Decidable.isFalse (fun hc => h (Except.error.inj hc))

/-- `(sigma * x + (1 - x))` evaluates to the per-player safety factors. -/
lemma sfull_eval (sigma : List ℚ) (x : List Bool) :
    List.zipWith (fun a b => a + b)
      (List.zipWith (fun a b => a * b) sigma (x.map bq))
      ((x.map bq).map (fun v => 1 - v))
    = List.zipWith (fun sj xj => if xj then sj else 1) sigma x := by
  rw [List.zipWith_map_right, zipWith_zipWith_same, List.zipWith_map_right]
  have hfun : (fun (a : ℚ) (b : Bool) => a * bq b + (1 - bq b))
      = fun (sj : ℚ) (xj : Bool) => if xj then sj else 1 := by
    funext s xb
    cases xb <;> simp [bq]
  rw [hfun]

/-- `(pi * (1 - x) + x)` evaluates to the code's effective performance. -/
lemma perf_eval (pi : List ℚ) (x : List Bool) :
    List.zipWith (fun a b => a + b)
      (List.zipWith (fun a b => a * (1 - b)) pi (x.map bq))
      (x.map bq)
    = amendedEffectivePerf pi x := by
  rw [zipWith_zipWith_same, List.zipWith_map_right]
  have hfun : (fun (a : ℚ) (b : Bool) => a * (1 - bq b) + bq b)
      = fun (pj : ℚ) (xj : Bool) => if xj then 1 else pj := by
    funext p xb
    cases xb <;> simp [bq]
  rw [hfun]
  rfl

/-- Evaluation of `Game.get_payoffs` when `len(x) = n_players`: every numpy
operation takes the equal-length branch. -/
lemma get_payoffs_ok (g : Game) (x : List Bool) (hx : x.length = g.n_players) :
    g.get_payoffs x =
      Except.ok (List.zipWith
        (fun rw dd => specSafeProba g.sigma x * rw - (1 - specSafeProba g.sigma x) * dd)
        (g.csf.all_rewards (amendedEffectivePerf g.pi x)) g.d) := by
  have hn : x.length = g.pi.length := hx
  have h1 : g.sigma.length = (x.map bq).length := by
    simp [g.sigma_len, hn]
  have h2 : (List.zipWith (fun a b => a * b) g.sigma (x.map bq)).length
      = ((x.map bq).map (fun v => 1 - v)).length := by
    simp [List.length_zipWith, g.sigma_len, hn]
  have h3 : g.pi.length = (x.map bq).length := by
    simp [hn]
  have h4 : (List.zipWith (fun a b => a * (1 - b)) g.pi (x.map bq)).length
      = (x.map bq).length := by
    simp [List.length_zipWith, hn]
  have h5 : (g.csf.all_rewards (amendedEffectivePerf g.pi x)).length = g.d.length := by
    simp [CSF.all_rewards, amendedEffectivePerf, List.length_zipWith, hn, g.d_len]
  simp only [Game.get_payoffs]
  rw [npBroadcast_eq_len _ _ _ h1]
  simp only [except_bind_ok]
  rw [npBroadcast_eq_len _ _ _ h2]
  simp only [except_bind_ok]
  rw [npBroadcast_eq_len _ _ _ h3]
  simp only [except_bind_ok]
  rw [npBroadcast_eq_len _ _ _ h4]
  simp only [except_bind_ok]
  rw [sfull_eval, perf_eval, npBroadcast_eq_len _ _ _ h5]
  rfl

/-- The zipWith form of the payoff vector coincides with the per-index
formula of the (amended) claim. -/
lemma payoff_vector_eval (g : Game) (x : List Bool) (hx : x.length = g.n_players) :
    List.zipWith
      (fun rw dd => specSafeProba g.sigma x * rw - (1 - specSafeProba g.sigma x) * dd)
      (g.csf.all_rewards (amendedEffectivePerf g.pi x)) g.d
    = claimPayoffVector g x (amendedEffectivePerf g.pi x) := by
  have hn : x.length = g.pi.length := hx
  have hperf : (amendedEffectivePerf g.pi x).length = g.pi.length := by
    simp [amendedEffectivePerf, List.length_zipWith, hn]
  have hrew : (g.csf.all_rewards (amendedEffectivePerf g.pi x)).length = g.pi.length := by
    simp [CSF.all_rewards, hperf]
  refine list_ext_getD _ _ ?_ ?_
  · unfold claimPayoffVector
    simp [List.length_zipWith, hrew, g.d_len, Game.n_players]
  · intro i hi
    have hin : i < g.pi.length := by
      rw [List.length_zipWith, hrew, g.d_len, min_self] at hi
      exact hi
    have hid : i < g.d.length := by rw [g.d_len]; exact hin
    have hirew : i < (g.csf.all_rewards (amendedEffectivePerf g.pi x)).length := by
      rw [hrew]; exact hin
    rw [getD_zipWith_q _ _ _ _ hirew hid,
      all_rewards_getD _ _ _ (by rw [hperf]; exact hin)]
    unfold claimPayoffVector
    rw [getD_range_map _ _ _ (show i < g.n_players from hin)]

/-- C1 (amended): for a `Game` with per-player vectors of equal length and a
strategy vector `x` of matching length whose effective performance vector has
positive sum, `get_payoffs x` returns the vector whose `i`-th entry is
`safe_proba * reward_i - (1 - safe_proba) * d_i` — but the effective
performance vector is the reverse of what C1 states: a risky player
contributes `1` and a safe player `j` contributes `pi_j`
(`self.pi * (1 - x) + x` at `src/discrete_model.py` line 70). -/
theorem get_payoffs_formula (g : Game) (x : List Bool) (hx : x.length = g.n_players)
    (hsum : 0 < (amendedEffectivePerf g.pi x).sum) :
    g.get_payoffs x = Except.ok (claimPayoffVector g x (amendedEffectivePerf g.pi x)) := by
  rw [get_payoffs_ok g x hx, payoff_vector_eval g x hx]

/-- A concrete game refuting C1 as stated: `pi = [3, 3]`, `sigma = [1, 1]`,
`d = [0, 0]`, CSF `w=1, l=0, a_w=1, a_l=0`. -/
def gC1 : Game :=
  { pi := [3, 3], sigma := [1, 1], d := [0, 0], csf := ⟨1, 0, 1, 0⟩,
    sigma_len := rfl, d_len := rfl }

/-- C1 counterexample: at `gC1` with `x = [risky, safe]` the claim's effective
performance vector is `[3, 1]` (sum `4 > 0`), its `safe_proba` is `1` and its
predicted payoff vector is `[3, 1/2]`; the source instead computes effective
performances `[1, 3]` and returns `[1/2, 3]`. -/
theorem get_payoffs_claim_counterexample :
    gC1.get_payoffs [true, false]
      ≠ Except.ok (claimPayoffVector gC1 [true, false]
          (claimEffectivePerf gC1.pi [true, false])) := by
  with_unfolding_all decide

/-- Witness for C1 (amended) at `gC1`, `x = [risky, safe]`. -/
theorem get_payoffs_formula_witness :
    (([true, false] : List Bool).length = gC1.n_players
        ∧ 0 < (amendedEffectivePerf gC1.pi [true, false]).sum)
      ∧ gC1.get_payoffs [true, false]
          = Except.ok (claimPayoffVector gC1 [true, false]
              (amendedEffectivePerf gC1.pi [true, false])) :=
  ⟨⟨by decide, by with_unfolding_all decide⟩,
    get_payoffs_formula gC1 [true, false] (by decide) (by with_unfolding_all decide)⟩

/-- C3: for every CSF parameter tuple and every performance vector `p` with
strictly positive sum, the `i`-th entry of the vectorized `CSF.all_rewards p`
equals `CSF.reward i p` for every valid index `i`. -/
theorem all_rewards_agrees_with_reward (c : CSF) (p : List ℚ) (i : ℕ)
    (hi : i < p.length) (hp : 0 < p.sum) :
    (c.all_rewards p).getD i 0 = c.reward i p :=
  all_rewards_getD c p i hi

/-- Witness for C3 at `w=1, l=0, a_w=0, a_l=0`, `p = [1, 2]`, `i = 1`. -/
theorem all_rewards_agrees_with_reward_witness :
    (1 < ([(1 : ℚ), 2]).length ∧ 0 < ([(1 : ℚ), 2]).sum) ∧
      ((CSF.all_rewards ⟨1, 0, 0, 0⟩ [1, 2]).getD 1 0 = CSF.reward ⟨1, 0, 0, 0⟩ 1 [1, 2]) :=
  ⟨⟨by decide, by norm_num⟩,
    all_rewards_agrees_with_reward ⟨1, 0, 0, 0⟩ [1, 2] 1 (by decide) (by norm_num)⟩

/- ### SymmetricTwoPlayerGame (`src/discrete_model.py` lines 74-109) -/

/-- `SymmetricTwoPlayerGame.__init__` (lines 75-78): scalar `pi`, `sigma`,
`d` and a CSF, broadcast to two identical players via `pi * ones(2)` etc. -/
structure SymmetricTwoPlayerGame where
  pi : ℚ
  sigma : ℚ
  d : ℚ
  csf : CSF

/-- The underlying two-player `Game` the constructor builds. -/
def SymmetricTwoPlayerGame.toGame (g : SymmetricTwoPlayerGame) : Game :=
  { pi := [g.pi, g.pi], sigma := [g.sigma, g.sigma], d := [g.d, g.d], csf := g.csf,
    sigma_len := rfl, d_len := rfl }

/-- Extract the payoff list from a `get_payoffs` result (always `ok` for the
length-2 strategy vectors used to build the payoff matrix). -/
def exceptValue {α : Type} (e : Except String α) (dflt : α) : α :=
  match e with
  | Except.ok a => a
  | Except.error _ => dflt

/-- `self.payoff_matrix` (`_get_payoff_matrix`, lines 80-84): the 2×2×2 array
with `payoff_matrix[own][other][i] = get_payoffs([own, other])[i]`
(`false` = index 0 = safe, `true` = index 1 = risky). -/
def SymmetricTwoPlayerGame.payoff_matrix (g : SymmetricTwoPlayerGame)
    (own other : Bool) (i : ℕ) : ℚ :=
  (exceptValue (g.toGame.get_payoffs [own, other]) []).getD i 0

/-- The mixed-equilibrium candidate `q0` (line 95).  The source computes this
elementwise on the broadcast 2-vectors `pi * ones(2)` etc., so both entries
equal this scalar; the code tests `q0[0]` and appends `tuple(q0)`. -/
def SymmetricTwoPlayerGame.q0 (g : SymmetricTwoPlayerGame) : ℚ :=
  (g.pi - 2 * g.sigma + 1 + 2 * g.d * (g.pi + 1) * (1 - g.sigma))
    / ((2 * g.d + 1) * (g.pi + 1) * (1 - g.sigma) ^ 2)

/-- `find_nash_eqs` (lines 86-98): appends `(0.0, 0.0)` if
`payoff_matrix[0,0,0] > payoff_matrix[1,0,0]`, then `(1.0, 1.0)` if
`payoff_matrix[1,1,0] > payoff_matrix[0,1,0]`, then `tuple(q0)` if
`0 < q0[0] < 1`. -/
def SymmetricTwoPlayerGame.find_nash_eqs (g : SymmetricTwoPlayerGame) : List (ℚ × ℚ) :=
  (if g.payoff_matrix false false 0 > g.payoff_matrix true false 0
    then [((0 : ℚ), (0 : ℚ))] else [])
  ++ (if g.payoff_matrix true true 0 > g.payoff_matrix false true 0
    then [((1 : ℚ), (1 : ℚ))] else [])
  ++ (if 0 < g.q0 ∧ g.q0 < 1 then [(g.q0, g.q0)] else [])

/-- `nash_payoffs(ps=None)` (lines 100-109): `ps` defaults to
`find_nash_eqs()`; for each pair the expected payoff of player 0 under
independent mixing. -/
def SymmetricTwoPlayerGame.nash_payoffs (g : SymmetricTwoPlayerGame)
    (ps : Option (List (ℚ × ℚ))) : List ℚ :=
  let eqs := match ps with
    | none => g.find_nash_eqs
    | some l => l
  eqs.map (fun p =>
    p.1 * p.2 * g.payoff_matrix true true 0
    + p.1 * (1 - p.2) * g.payoff_matrix true false 0
    + (1 - p.1) * p.2 * g.payoff_matrix false true 0
    + (1 - p.1) * (1 - p.2) * g.payoff_matrix false false 0)

/-- Membership in the equilibrium list, by construction. -/
lemma mem_find_nash_eqs (g : SymmetricTwoPlayerGame) (p : ℚ × ℚ) :
    p ∈ g.find_nash_eqs ↔
      (p = ((0 : ℚ), (0 : ℚ))
          ∧ g.payoff_matrix false false 0 > g.payoff_matrix true false 0)
      ∨ (p = ((1 : ℚ), (1 : ℚ))
          ∧ g.payoff_matrix true true 0 > g.payoff_matrix false true 0)
      ∨ (p = (g.q0, g.q0) ∧ 0 < g.q0 ∧ g.q0 < 1) := by
  unfold SymmetricTwoPlayerGame.find_nash_eqs
  by_cases h1 : g.payoff_matrix false false 0 > g.payoff_matrix true false 0 <;>
    by_cases h2 : g.payoff_matrix true true 0 > g.payoff_matrix false true 0 <;>
    by_cases h3 : 0 < g.q0 ∧ g.q0 < 1 <;>
    simp [h1, h2, h3]

/-- C2: for every `SymmetricTwoPlayerGame`, `find_nash_eqs` contains the
pure-safe pair `(0,0)` iff `payoff_matrix[safe][safe][0] >
payoff_matrix[risky][safe][0]`, and the pure-risky pair `(1,1)` iff
`payoff_matrix[risky][risky][0] > payoff_matrix[safe][risky][0]`; both
comparisons are strict (a tie yields no equilibrium of that kind) and each
membership is decided by its own check alone, independently of the other and
of the mixed-equilibrium check. -/
theorem find_nash_eqs_pure_checks (g : SymmetricTwoPlayerGame) :
    (((0 : ℚ), (0 : ℚ)) ∈ g.find_nash_eqs
        ↔ g.payoff_matrix false false 0 > g.payoff_matrix true false 0)
    ∧ (((1 : ℚ), (1 : ℚ)) ∈ g.find_nash_eqs
        ↔ g.payoff_matrix true true 0 > g.payoff_matrix false true 0) := by
  constructor
  · rw [mem_find_nash_eqs]
    constructor
    · rintro (⟨_, h⟩ | ⟨heq, _⟩ | ⟨heq, hq, _⟩)
      · exact h
      · exact absurd (congrArg Prod.fst heq) (by norm_num)
      · have h0 : (0 : ℚ) = g.q0 := congrArg Prod.fst heq
        rw [← h0] at hq
        exact absurd hq (lt_irrefl 0)
    · intro h
      exact Or.inl ⟨rfl, h⟩
  · rw [mem_find_nash_eqs]
    constructor
    · rintro (⟨heq, _⟩ | ⟨_, h⟩ | ⟨heq, _, hq⟩)
      · exact absurd (congrArg Prod.fst heq) (by norm_num)
      · exact h
      · have h1 : (1 : ℚ) = g.q0 := congrArg Prod.fst heq
        rw [← h1] at hq
        exact absurd hq (lt_irrefl 1)
    · intro h
      exact Or.inr (Or.inl ⟨rfl, h⟩)

/-- C9: `nash_payoffs` with no argument (`ps=None`) returns exactly the list
obtained by passing `find_nash_eqs()`'s result explicitly. -/
theorem nash_payoffs_default_agrees (g : SymmetricTwoPlayerGame) :
    g.nash_payoffs none = g.nash_payoffs (some g.find_nash_eqs) :=
  rfl

/-- C5: with `sigma = 1` and `d = 0` the closed-form denominator
`(2d+1)(pi+1)(1-sigma)^2` is zero; `find_nash_eqs` still terminates (it is a
total function here) and returns no mixed pair: every returned equilibrium is
one of the two pure pairs.  (The float code produces NaN/inf from the zero
denominator and the strict `0 < q0 < 1` test rejects it; in this rational
model the total division yields the degenerate value `0`, rejected by the
same strict test.) -/
theorem find_nash_eqs_sigma_one_no_mixed (pi : ℚ) (csf : CSF) (p : ℚ × ℚ)
    (hp : p ∈ (SymmetricTwoPlayerGame.find_nash_eqs ⟨pi, 1, 0, csf⟩)) :
    p = ((0 : ℚ), (0 : ℚ)) ∨ p = ((1 : ℚ), (1 : ℚ)) := by
  rw [mem_find_nash_eqs] at hp
  rcases hp with ⟨h, _⟩ | ⟨h, _⟩ | ⟨_, hq, _⟩
  · exact Or.inl h
  · exact Or.inr h
  · exfalso
    have hq0 : (SymmetricTwoPlayerGame.q0 ⟨pi, 1, 0, csf⟩) = 0 := by
      unfold SymmetricTwoPlayerGame.q0
      norm_num
    rw [hq0] at hq
    exact lt_irrefl 0 hq

/-- A concrete degenerate game for C5: `pi = 3`, `sigma = 1`, `d = 0`,
baseline CSF; its equilibrium list is exactly `[(0, 0)]`. -/
def gC5 : SymmetricTwoPlayerGame :=
  ⟨3, 1, 0, ⟨1, 0, 0, 0⟩⟩

/-- Witness for C5 at `gC5`: `(0,0)` is in the returned list and the theorem
classifies it as pure. -/
theorem find_nash_eqs_sigma_one_no_mixed_witness :
    (((0 : ℚ), (0 : ℚ)) ∈ gC5.find_nash_eqs)
      ∧ (((0 : ℚ), (0 : ℚ)) = ((0 : ℚ), (0 : ℚ)) ∨ ((0 : ℚ), (0 : ℚ)) = ((1 : ℚ), (1 : ℚ))) :=
  ⟨by with_unfolding_all decide,
    find_nash_eqs_sigma_one_no_mixed 3 ⟨1, 0, 0, 0⟩ ((0 : ℚ), (0 : ℚ))
      (by with_unfolding_all decide)⟩

/-- Rank of an equilibrium pair in the order the source appends them:
pure-safe, then pure-risky, then mixed. -/
def eqKindRank (p : ℚ × ℚ) : ℕ :=
  if p = ((0 : ℚ), (0 : ℚ)) then 0 else if p = ((1 : ℚ), (1 : ℚ)) then 1 else 2

lemma find_nash_eqs_len (g : SymmetricTwoPlayerGame) :
    g.find_nash_eqs.length ≤ 3 := by
  unfold SymmetricTwoPlayerGame.find_nash_eqs
  split_ifs <;> simp

lemma find_nash_eqs_components (g : SymmetricTwoPlayerGame) :
    ∀ p ∈ g.find_nash_eqs, p.1 = p.2 := by
  intro p hp
  rcases (mem_find_nash_eqs g p).1 hp with ⟨h, _⟩ | ⟨h, _⟩ | ⟨h, _⟩ <;> subst h <;> rfl

lemma rank_mixed (g : SymmetricTwoPlayerGame) (h : 0 < g.q0 ∧ g.q0 < 1) :
    eqKindRank (g.q0, g.q0) = 2 := by
  have n0 : ¬(g.q0 = 0) := ne_of_gt h.1
  have n1 : ¬(g.q0 = 1) := ne_of_lt h.2
  simp [eqKindRank, Prod.ext_iff, n0, n1]

lemma find_nash_eqs_pairwise (g : SymmetricTwoPlayerGame) :
    List.Pairwise (fun a b => eqKindRank a < eqKindRank b) g.find_nash_eqs := by
  have hrank0 : eqKindRank (0 : ℚ × ℚ) = 0 := by
    norm_num [eqKindRank, Prod.ext_iff]
  have hrank1 : eqKindRank (1 : ℚ × ℚ) = 1 := by
    norm_num [eqKindRank, Prod.ext_iff]
  by_cases h1 : g.payoff_matrix false false 0 > g.payoff_matrix true false 0 <;>
    by_cases h2 : g.payoff_matrix true true 0 > g.payoff_matrix false true 0 <;>
    by_cases h3 : 0 < g.q0 ∧ g.q0 < 1 <;>
    norm_num [SymmetricTwoPlayerGame.find_nash_eqs, h1, h2, h3, List.pairwise_cons,
      hrank0, hrank1] <;>
    norm_num [rank_mixed g h3, hrank0, hrank1]

/-- C10: `find_nash_eqs` returns at most three pairs, in the fixed order
pure-safe `(0,0)` (when present), then pure-risky `(1,1)` (when present),
then the mixed pair (when present), and every returned pair has equal
components (the mixed pair is `(q0, q0)`). -/
theorem find_nash_eqs_order (g : SymmetricTwoPlayerGame) :
    g.find_nash_eqs.length ≤ 3
    ∧ List.Pairwise (fun a b => eqKindRank a < eqKindRank b) g.find_nash_eqs
    ∧ ∀ p ∈ g.find_nash_eqs, p.1 = p.2 :=
  ⟨find_nash_eqs_len g, find_nash_eqs_pairwise g, find_nash_eqs_components g⟩

/-- Witness for C10 at the concrete game `gC5` (whose list is `[(0, 0)]`). -/
theorem find_nash_eqs_order_witness :
    gC5.find_nash_eqs.length ≤ 3
    ∧ List.Pairwise (fun a b => eqKindRank a < eqKindRank b) gC5.find_nash_eqs
    ∧ ∀ p ∈ gC5.find_nash_eqs, p.1 = p.2 :=
  find_nash_eqs_order gC5

/- ### C8: `get_payoffs` with a wrong-length strategy vector -/

/-- A two-player game for the C8 broadcasting counterexample:
`pi = [2, 2]`, `sigma = [1/2, 1/2]`, `d = [0, 0]`, baseline CSF. -/
def gC8 : Game :=
  { pi := [2, 2], sigma := [1/2, 1/2], d := [0, 0], csf := ⟨1, 0, 0, 0⟩,
    sigma_len := rfl, d_len := rfl }

/-- C8 counterexample: `gC8` has `n_players = 2`, yet `get_payoffs([True])`
does not fail — numpy broadcasts the length-1 strategy vector across both
players and returns the payoff vector `[1/8, 1/8]`. -/
theorem get_payoffs_broadcast_counterexample :
    gC8.get_payoffs [true] = Except.ok [1/8, 1/8]
      ∧ ([true] : List Bool).length ≠ gC8.n_players := by
  with_unfolding_all decide

/-- C8 (amended): calling `get_payoffs` with `len(x) ≠ n_players` fails with
numpy's broadcast shape error — provided neither length is `1`; a length-1
operand is instead silently broadcast and a payoff vector is returned. -/
theorem get_payoffs_length_mismatch_error (g : Game) (x : List Bool)
    (hne : x.length ≠ g.n_players) (hx1 : x.length ≠ 1) (hn1 : g.n_players ≠ 1) :
    g.get_payoffs x = Except.error "operands could not be broadcast together" := by
  have hb : npBroadcast (fun a b => a * b) g.sigma (x.map bq)
      = Except.error "operands could not be broadcast together" := by
    unfold npBroadcast
    rw [if_neg, if_neg, if_neg]
    · intro hc
      rw [List.length_map] at hc
      exact hx1 hc
    · intro hc
      rw [g.sigma_len] at hc
      exact hn1 hc
    · intro hc
      rw [List.length_map] at hc
      refine hne ?_
      show x.length = g.pi.length
      rw [← g.sigma_len]
      exact hc.symm
  simp only [Game.get_payoffs]
  rw [hb]
  rfl

/-- Witness for C8 (amended): a length-3 strategy vector against `gC8`. -/
theorem get_payoffs_length_mismatch_error_witness :
    (([true, true, true] : List Bool).length ≠ gC8.n_players
      ∧ ([true, true, true] : List Bool).length ≠ 1 ∧ gC8.n_players ≠ 1)
    ∧ gC8.get_payoffs [true, true, true]
        = Except.error "operands could not be broadcast together" :=
  ⟨⟨by decide, by decide, by decide⟩,
    get_payoffs_length_mismatch_error gC8 [true, true, true]
      (by decide) (by decide) (by decide)⟩

/- ### `src/scenarios.py`: constructor validation (C4) -/

/-- The shape of a numpy array parameter passed to `Scenario.__init__`: the
validation loop (lines 139-150) consults only `ndim`, `len` and `shape`. -/
inductive NpShape where
  | d1 (n : ℕ)
  | d2 (rows cols : ℕ)

/-- `param.ndim`. -/
def NpShape.ndim : NpShape → ℕ
  | NpShape.d1 _ => 1
  | NpShape.d2 _ _ => 2

/-- `len(param)` (the first dimension). -/
def NpShape.firstDim : NpShape → ℕ
  | NpShape.d1 n => n
  | NpShape.d2 r _ => r

/-- `param.shape[1]` (only consulted on 2-D arrays). -/
def NpShape.secondDim : NpShape → ℕ
  | NpShape.d1 _ => 0
  | NpShape.d2 _ c => c

/-- The seven named vector parameters of a `Scenario`
(`VEC_PARAM_NAMES = ['A', 'alpha', 'B', 'beta', 'theta', 'd', 'r']`,
`src/scenarios.py` line 29), by shape. -/
structure ScenarioVecParams where
  A : NpShape
  alpha : NpShape
  B : NpShape
  beta : NpShape
  theta : NpShape
  d : NpShape
  r : NpShape

/-- The `(name, value)` pairs the validation loop iterates over, in
`VEC_PARAM_NAMES` order. -/
def vecParamList (ps : ScenarioVecParams) : List (String × NpShape) :=
  [("A", ps.A), ("alpha", ps.alpha), ("B", ps.B), ("beta", ps.beta),
    ("theta", ps.theta), ("d", ps.d), ("r", ps.r)]

/-- One iteration of the validation loop in `Scenario.__init__`
(`src/scenarios.py` lines 139-150): the primary varying parameter must be
1-D; the secondary varying parameter must be 2-D with second dimension
`n_players`; every other parameter must be 1-D of length `n_players`.  A
failed `assert` is modelled as an error carrying the assertion message. -/
def checkVecParam (n_players : ℕ) (varying_param : String)
    (secondary_varying_param : Option String) (q : String × NpShape) :
    Except String Unit :=
  if varying_param = q.1 then
    match q.2 with
    | NpShape.d1 _ => Except.ok ()
    | NpShape.d2 _ _ =>
        Except.error "Primary varying param is expected to be a 1d numpy array"
  else if secondary_varying_param = some q.1 then
    match q.2 with
    | NpShape.d2 _ cols =>
        if cols = n_players then Except.ok ()
        else Except.error "Secondary varying param is expected to be 2d numpy array; second dimension should match number of players"
    | NpShape.d1 _ =>
        Except.error "Secondary varying param is expected to be 2d numpy array; second dimension should match number of players"
  else
    match q.2 with
    | NpShape.d1 n =>
        if n = n_players then Except.ok ()
        else Except.error "Length of param should match number of players"
    | NpShape.d2 _ _ =>
        Except.error "Length of param should match number of players"

/-- Sequential execution of per-element checks, stopping at the first
failure (as a Python `for` loop of `assert`s does). -/
def runChecks {α : Type} (f : α → Except String Unit) : List α → Except String Unit
  | [] => Except.ok ()
  | a :: rest =>
    match f a with
    | Except.ok _ => runChecks f rest
    | Except.error e => Except.error e

/-- The whole validation loop of `Scenario.__init__`. -/
def Scenario.init_validate (n_players : ℕ) (ps : ScenarioVecParams)
    (varying_param : String) (secondary_varying_param : Option String) :
    Except String Unit :=
  runChecks (checkVecParam n_players varying_param secondary_varying_param)
    (vecParamList ps)

/-- The shape rule of claim C4, stated from the spec's words: the designated
primary varying parameter must be 1-D; the designated secondary varying
parameter (when named) must be 2-D with second dimension `n_players`; every
other named vector parameter must be 1-D of length `n_players`. -/
def shapeRule (n_players : ℕ) (varying_param : String)
    (secondary_varying_param : Option String) (q : String × NpShape) : Prop :=
  if varying_param = q.1 then q.2.ndim = 1
  else if secondary_varying_param = some q.1 then
    q.2.ndim = 2 ∧ q.2.secondDim = n_players
  else q.2.ndim = 1 ∧ q.2.firstDim = n_players

lemma runChecks_ok_iff {α : Type} (f : α → Except String Unit) (l : List α) :
    runChecks f l = Except.ok () ↔ ∀ a ∈ l, f a = Except.ok () := by
  induction l with
  | nil => simp [runChecks]
  | cons a rest ih =>
    cases h : f a with
    | ok u =>
      cases u
      simp [runChecks, h, ih]
    | error e =>
      simp [runChecks, h]

lemma checkVecParam_ok_iff (n_players : ℕ) (varying_param : String)
    (secondary_varying_param : Option String) (q : String × NpShape) :
    checkVecParam n_players varying_param secondary_varying_param q = Except.ok ()
      ↔ shapeRule n_players varying_param secondary_varying_param q := by
  rcases q with ⟨name, sh⟩
  cases sh <;>
    simp only [checkVecParam, shapeRule, NpShape.ndim, NpShape.firstDim, NpShape.secondDim] <;>
    split_ifs <;>
    simp_all

/-- C4: the `Scenario` constructor's validation (run at construction time,
before any solving) rejects the parameters — with the assert message naming
the offending rule — iff some vector parameter violates its shape rule:
equivalently, it accepts iff every one of the seven named parameters
conforms (primary varying 1-D; secondary varying 2-D with second dimension
`n_players`; all others 1-D of length `n_players`). -/
theorem scenario_validation_iff (n_players : ℕ) (ps : ScenarioVecParams)
    (varying_param : String) (secondary_varying_param : Option String) :
    Scenario.init_validate n_players ps varying_param secondary_varying_param
        = Except.ok ()
      ↔ ∀ q ∈ vecParamList ps,
          shapeRule n_players varying_param secondary_varying_param q := by
  unfold Scenario.init_validate
  rw [runChecks_ok_iff]
  exact forall₂_congr fun q _ => checkVecParam_ok_iff _ _ _ q

/-- Witness for C4: `n_players = 2`, primary `r` of length 20, secondary `B`
with second dimension `3 ≠ 2` — validation rejects, and indeed the `B`
parameter violates its rule. -/
theorem scenario_validation_iff_witness :
    (Scenario.init_validate 2
          ⟨NpShape.d1 2, NpShape.d1 2, NpShape.d2 3 3, NpShape.d1 2,
            NpShape.d1 2, NpShape.d1 2, NpShape.d1 20⟩ "r" (some "B")
        = Except.ok ()
      ↔ ∀ q ∈ vecParamList
          ⟨NpShape.d1 2, NpShape.d1 2, NpShape.d2 3 3, NpShape.d1 2,
            NpShape.d1 2, NpShape.d1 2, NpShape.d1 20⟩,
          shapeRule 2 "r" (some "B") q) :=
  scenario_validation_iff 2
    ⟨NpShape.d1 2, NpShape.d1 2, NpShape.d2 3 3, NpShape.d1 2,
      NpShape.d1 2, NpShape.d1 2, NpShape.d1 20⟩ "r" (some "B")

/- ### C6: the native-backend payoff call reuses `a_w` for `a_l` -/

/-- The CSF scalars stored on a `Scenario` (`self.w`, `self.l`, `self.a_w`,
`self.a_l`, `src/scenarios.py` lines 126-129). -/
structure ScenarioScalars where
  w : ℚ
  l : ℚ
  a_w : ℚ
  a_l : ℚ

/-- The keyword arguments `(W, L, a_w, a_l)` of the external native
`get_payoffs` collaborator. -/
structure CppPayoffArgs where
  W : ℚ
  L : ℚ
  a_w : ℚ
  a_l : ℚ

/-- The scalar arguments `Scenario._solve_cpp` actually passes to the
external `get_payoffs` for every grid row (`src/scenarios.py` lines
267-270): `W=self.w, L=self.l, a_w=self.a_w, a_l=self.a_w`. -/
def Scenario.solve_cpp_payoff_args (sc : ScenarioScalars) : CppPayoffArgs :=
  { W := sc.w, L := sc.l, a_w := sc.a_w, a_l := sc.a_w }

/-- C6: the native-backend sweep path does NOT pass the scenario's distinct
`a_l` scalar as the `a_l` argument — at the scenario scalars
`w=1, l=0, a_w=0, a_l=1` the value passed for `a_l` is `self.a_w = 0`,
not `self.a_l = 1` (`a_l=self.a_w` at `src/scenarios.py` line 270). -/
theorem solve_cpp_a_l_bug :
    (Scenario.solve_cpp_payoff_args ⟨1, 0, 0, 1⟩).a_l
        = ScenarioScalars.a_w ⟨1, 0, 0, 1⟩
      ∧ (Scenario.solve_cpp_payoff_args ⟨1, 0, 0, 1⟩).a_l
        ≠ ScenarioScalars.a_l ⟨1, 0, 0, 1⟩ := by
  with_unfolding_all decide

/- ### C7: availability of the native backend -/

/-- Module import of `src/scenarios.py` (lines 13-18): `CPP_AVAILABLE` is
set to whether `build/libpybindings.so` exists; when the artifact is absent
no exception is raised (the native bindings are simply not imported). -/
def cppImportResult (artifactPresent : Bool) : Except String Bool :=
  Except.ok artifactPresent

/-- The three solver backends of `Scenario.solve`. -/
inductive Backend where
  | cpp
  | python
  | roots
deriving DecidableEq

/-- The backend dispatch in `Scenario.solve` (`src/scenarios.py` lines
481-486): a pure string switch on `method`; `CPP_AVAILABLE` is not
consulted anywhere in `solve`. -/
def Scenario.choose_method (method : String) : Backend :=
  if method = "cpp" then Backend.cpp
  else if method = "python" then Backend.python
  else Backend.roots

/-- One row's work in `_cpp_multiproc_helper` (`src/scenarios.py` lines
61-86): it calls the module-global `solve`, which was imported only when the
artifact exists; when absent, the call raises `NameError` inside the worker
process.  (The successful branch abstracts the external native solver, whose
value is irrelevant to this claim.) -/
def cppWorker (cppAvailable : Bool) ( _row : ℕ) : Except String Unit :=
  if cppAvailable then Except.ok ()
  else Except.error "NameError: name solve is not defined"

/-- The `pool.map(_cpp_multiproc_helper, ...)` stage of `_solver_helper` for
the native backend: each of the `n_steps` grid rows runs the worker. -/
def Scenario.sweep_cpp (cppAvailable : Bool) (n_steps : ℕ) : Except String Unit :=
  runChecks (cppWorker cppAvailable) (List.range n_steps)

/-- C7 counterexample: with the artifact absent, the import still succeeds
(silently recording unavailability), `solve(method='cpp')` still dispatches
to the cpp path — no pre-dispatch detection exists — and the failure
(`NameError`) surfaces only inside the per-row worker stage of a 1-row
sweep, i.e. mid-sweep rather than before dispatch. -/
theorem cpp_unavailable_counterexample :
    cppImportResult false = Except.ok false
      ∧ Scenario.choose_method "cpp" = Backend.cpp
      ∧ Scenario.sweep_cpp false 1 = Except.error "NameError: name solve is not defined" := by
  refine ⟨rfl, by decide, by decide⟩

/-- C7 (amended): absence of the compiled artifact at import time silently
sets `CPP_AVAILABLE = False` without a fatal condition, but `solve` never
consults `CPP_AVAILABLE`: requesting `method='cpp'` with the artifact absent
still selects the cpp backend, and every nonempty sweep then fails with
`NameError` inside the row workers (mid-sweep), not before dispatch. -/
theorem cpp_unavailable_amended (n : ℕ) (hn : 0 < n) :
    cppImportResult false = Except.ok false
      ∧ Scenario.choose_method "cpp" = Backend.cpp
      ∧ Scenario.sweep_cpp false n = Except.error "NameError: name solve is not defined" := by
  refine ⟨rfl, by decide, ?_⟩
  obtain ⟨m, rfl⟩ : ∃ m, n = m + 1 := ⟨n - 1, (Nat.succ_pred_eq_of_pos hn).symm⟩
  unfold Scenario.sweep_cpp
  rw [List.range_succ_eq_map]
  rfl

/-- Witness for C7 (amended) at a 2-row sweep. -/
theorem cpp_unavailable_amended_witness :
    0 < 2
      ∧ (cppImportResult false = Except.ok false
        ∧ Scenario.choose_method "cpp" = Backend.cpp
        ∧ Scenario.sweep_cpp false 2 = Except.error "NameError: name solve is not defined") :=
  ⟨by decide, cpp_unavailable_amended 2 (by decide)⟩

end AiIncentives
